import Mathlib

/-! # stm32plus : the CAN peripheral base class (`lib/include/can/Can.h`)

A shallow embedding of the member functions of `stm32plus::Can` together with
the properties of its send / receive / error paths.

`Can.h` is a thin wrapper: every member function calls into the vendor
peripheral library (`CAN_Transmit`, `CAN_Receive`, `CAN_MessagePending`,
`CAN_GetLastErrorCode`) and into the library-wide `errorProvider`.  None of
those is declared under `src/`.  The vendor primitives and the vendor constants
are therefore parameters of the model (structure `Externals`), and the error
provider is modelled from the contract given in the specification.

Machine integers are natural numbers with explicit reductions (`u8`, `u16`,
`u32OfInt`) at the places where the C++ types convert.  The data frame
overloads call `memcpy` with an unchecked length; a copy that runs past the
8 byte data array is undefined behaviour and is modelled as a call without a
result (`Except.error`).
-/

namespace stm32plus

/-! ## Machine integers -/

/-- Conversion to `uint8_t`. -/
def u8 (n : Nat) : Nat := n % 2 ^ 8

/-- Conversion to `uint16_t`. -/
def u16 (n : Nat) : Nat := n % 2 ^ 16

/-- Conversion of a signed value to `uint32_t` (the assignment
`msg.ExtId=ExtId` of an `int32_t` to a 32 bit unsigned field). -/
def u32OfInt (i : Int) : Nat := (i % 2 ^ 32).toNat

/-! ## Records declared outside `src/` -/

/-- Modelled from the spec: the transmit frame record `CanTxMsg` is declared by
the vendor peripheral library, which is not under `src/`.  The spec describes
the frame as a standard or extended identifier, 0-8 data bytes and a remote /
data flag; `Can.h` assigns the fields `IDE`, `RTR`, `DLC`, `StdId`, `ExtId` and
copies into `Data`.  `StdId` and `ExtId` are 32 bit unsigned fields.  `Data` is
the list of the bytes of the 8 byte array `Data`; its length is the size of the
array. -/
structure CanTxMsg where
  StdId : Nat
  ExtId : Nat
  IDE : Nat
  RTR : Nat
  DLC : Nat
  Data : List Nat
  deriving DecidableEq

/-- Modelled from the spec: the receive frame record `CanRxMsg` is declared by
the vendor peripheral library, which is not under `src/`.  `Can.h` only passes
a pointer to it through to `CAN_Receive`. -/
structure CanRxMsg where
  StdId : Nat
  ExtId : Nat
  IDE : Nat
  RTR : Nat
  DLC : Nat
  Data : List Nat
  FMI : Nat
  deriving DecidableEq

/-- Modelled from the spec: the `ErrorRecord` of the error reporting channel,
"the last (subsystem, code, nativeCode) triple".  The class behind
`errorProvider` is not under `src/`. -/
structure ErrorRecord where
  subsystem : Nat
  code : Nat
  nativeCode : Nat
  deriving DecidableEq

/-- Modelled from the spec: `errorProvider.set`, whose definition is not under
`src/`.  Spec 4.1: "`setError(subsystem, code, nativeCode) -> code` - records
the failure and returns the same code"; spec 3: the record is "overwritten on
every fallible-operation failure ... (last-write-wins)".  The result is the
returned code paired with the new record. -/
def ErrorRecord.set (_old : ErrorRecord) (subsystem code nativeCode : Nat) :
    Nat × ErrorRecord :=
  (code, { subsystem := subsystem, code := code, nativeCode := nativeCode })

/-! ## The vendor library as a parameter -/

/-- The declarations `Can.h` uses and `src/` does not contain, taken as
parameters: the vendor constants, the subsystem tag of the error provider, and
the four vendor primitives as functions of an abstract hardware state `HW`.
Every primitive receives the peripheral address first, like in the source, and
returns the hardware state after the call. -/
structure Externals (HW : Type) where
  CAN_TxStatus_NoMailBox : Nat
  CAN_ErrorCode_NoErr : Nat
  CAN_Id_Standard : Nat
  CAN_Id_Extended : Nat
  CAN_RTR_Data : Nat
  CAN_RTR_Remote : Nat
  ERROR_PROVIDER_CAN : Nat
  CAN_Transmit : HW → Nat → CanTxMsg → Nat × HW
  CAN_MessagePending : HW → Nat → Nat → Nat × HW
  CAN_Receive : HW → Nat → Nat → CanRxMsg → CanRxMsg × HW
  CAN_GetLastErrorCode : HW → Nat → Nat × HW

/-- One call of a vendor primitive, with the arguments that follow the
peripheral address. -/
inductive Call where
  | transmit (msg : CanTxMsg)
  | messagePending (fifo : Nat)
  | receive (fifo : Nat) (msg : CanRxMsg)
  | getLastErrorCode
  deriving DecidableEq

/-- Everything a member function of `Can` can read or change: the hardware, the
process-wide error record, and the log of vendor primitive calls made so far
(oldest first). -/
structure World (HW : Type) where
  hw : HW
  errorProvider : ErrorRecord
  calls : List Call
  deriving DecidableEq

/-- The frames handed to `CAN_Transmit` in a call log, oldest first. -/
def transmitted (l : List Call) : List CanTxMsg :=
  l.filterMap fun c => match c with
    | Call.transmit m => some m
    | _ => none

/-- Number of `CAN_Receive` calls in a call log. -/
def receiveCalls (l : List Call) : Nat :=
  (l.filter fun c => match c with
    | Call.receive _ _ => true
    | _ => false).length

/-! ## `class Can` -/

/-- The `Can` object.  Of its two members only `_peripheralAddress` is read by
the functions below (`_init` is only handed out by a conversion operator). -/
structure Can where
  _peripheralAddress : Nat
  deriving DecidableEq

/-- Enumerator `Can::E_TX_NO_MAILBOX` (Can.h line 21). -/
def Can.E_TX_NO_MAILBOX : Nat := 1

/-- The array `dst` after its bytes `0 .. n-1` have been replaced by the bytes
read from `src` (a function from offset to byte); later bytes keep their
value. -/
def memcpyBytes (dst : List Nat) (src : Nat → Nat) (n : Nat) : List Nat :=
  (List.range n).map (fun i => u8 (src i)) ++ dst.drop n

/-- The C library call `memcpy(dst,src,n)` into the array `dst`.  When `n`
exceeds the size of `dst` the copy writes past the end of the array, which is
undefined behaviour: there is no result. -/
def memcpy (dst : List Nat) (src : Nat → Nat) (n : Nat) : Option (List Nat) :=
  if n ≤ dst.length then some (memcpyBytes dst src n) else none

/-- What is known when a data frame overload reaches a `memcpy` that runs past
the `Data` array of its local frame: the frame as assigned so far and the
number of bytes the copy was asked to write.  The call has no defined result
from there on. -/
structure Overrun where
  msg : CanTxMsg
  count : Nat
  deriving DecidableEq

/-- Member function `uint8_t Can::send(CanTxMsg& msg) const` (Can.h lines 212-219).
`auto mbox` has the vendor return type `uint8_t`. -/
def Can.send {HW : Type} (c : Can) (v : Externals HW) (msg : CanTxMsg) (w : World HW) :
    Nat × World HW :=
  let r := v.CAN_Transmit w.hw c._peripheralAddress msg
  let mbox := u8 r.1
  let w1 : World HW := { w with hw := r.2, calls := w.calls ++ [Call.transmit msg] }
  if mbox = v.CAN_TxStatus_NoMailBox then
    let e := w1.errorProvider.set v.ERROR_PROVIDER_CAN Can.E_TX_NO_MAILBOX v.CAN_TxStatus_NoMailBox
    (u8 e.1, { w1 with errorProvider := e.2 })
  else
    (mbox, w1)

/-- Member function `uint8_t Can::sendRemoteFrame(uint16_t StdId,uint8_t DLC) const`
(Can.h lines 121-131).  `init` is the indeterminate content of the local `msg`
before the assignments. -/
def Can.sendRemoteFrameStd {HW : Type} (c : Can) (v : Externals HW) (init : CanTxMsg)
    (StdId DLC : Nat) (w : World HW) : Nat × World HW :=
  let msg : CanTxMsg :=
    { init with IDE := v.CAN_Id_Standard, RTR := v.CAN_RTR_Remote, DLC := u8 DLC,
                StdId := u16 StdId }
  Can.send c v msg w

/-- Member function `uint8_t Can::sendRemoteFrame(uint16_t StdId,int32_t ExtId,uint8_t DLC) const`
(Can.h lines 142-154). -/
def Can.sendRemoteFrameExt {HW : Type} (c : Can) (v : Externals HW) (init : CanTxMsg)
    (StdId : Nat) (ExtId : Int) (DLC : Nat) (w : World HW) : Nat × World HW :=
  let msg : CanTxMsg :=
    { init with IDE := v.CAN_Id_Extended, RTR := v.CAN_RTR_Remote, DLC := u8 DLC,
                StdId := u16 StdId, ExtId := u32OfInt ExtId }
  Can.send c v msg w

/-- Member function `uint8_t Can::send(uint16_t StdId,uint8_t DLC,const void *data) const`
(Can.h lines 165-177).  `data i` is the byte at offset `i` from the pointer.
The result is `Except.ok` of what `send(msg)` returns, or `Except.error` when
the unchecked `memcpy` overruns `msg.Data`. -/
def Can.sendStd {HW : Type} (c : Can) (v : Externals HW) (init : CanTxMsg)
    (StdId DLC : Nat) (data : Nat → Nat) (w : World HW) :
    Except Overrun (Nat × World HW) :=
  let msg : CanTxMsg :=
    { init with IDE := v.CAN_Id_Standard, RTR := v.CAN_RTR_Data, DLC := u8 DLC,
                StdId := u16 StdId }
  match memcpy msg.Data data (u8 DLC) with
  | none => Except.error { msg := msg, count := u8 DLC }
  | some d => Except.ok (Can.send c v { msg with Data := d } w)

/-- Member function `uint8_t Can::send(uint16_t StdId,int32_t ExtId,uint8_t DLC,const void *data) const`
(Can.h lines 189-203).  The result is `Except.ok` of what `send(msg)` returns,
or `Except.error` when the unchecked `memcpy` overruns `msg.Data`. -/
def Can.sendExt {HW : Type} (c : Can) (v : Externals HW) (init : CanTxMsg)
    (StdId : Nat) (ExtId : Int) (DLC : Nat) (data : Nat → Nat) (w : World HW) :
    Except Overrun (Nat × World HW) :=
  let msg : CanTxMsg :=
    { init with IDE := v.CAN_Id_Extended, RTR := v.CAN_RTR_Data, DLC := u8 DLC,
                StdId := u16 StdId, ExtId := u32OfInt ExtId }
  match memcpy msg.Data data (u8 DLC) with
  | none => Except.error { msg := msg, count := u8 DLC }
  | some d => Except.ok (Can.send c v { msg with Data := d } w)

/-- Member function `bool Can::readyToReceive(uint8_t fifo) const` (Can.h lines 227-229):
`!!CAN_MessagePending(...)`, the vendor return type being `uint8_t`; the inner
`!` on the integer is `== 0`, the outer one is the boolean negation. -/
def Can.readyToReceive {HW : Type} (c : Can) (v : Externals HW) (fifo : Nat) (w : World HW) :
    Bool × World HW :=
  let r := v.CAN_MessagePending w.hw c._peripheralAddress fifo
  (!(u8 r.1 == 0), { w with hw := r.2, calls := w.calls ++ [Call.messagePending fifo] })

/-- Member function `bool Can::receive(uint8_t fifo,CanRxMsg* msg) const` (Can.h lines 236-243).
The result is the returned flag, the message behind the pointer after the call,
and the world after the call. -/
def Can.receive {HW : Type} (c : Can) (v : Externals HW) (fifo : Nat) (msg : CanRxMsg)
    (w : World HW) : Bool × CanRxMsg × World HW :=
  let ready := Can.readyToReceive c v fifo w
  if !ready.1 then
    (false, msg, ready.2)
  else
    let r := v.CAN_Receive ready.2.hw c._peripheralAddress fifo msg
    (true, r.1, { ready.2 with hw := r.2, calls := ready.2.calls ++ [Call.receive fifo msg] })

/-- Member function `bool Can::hasErrors () const` (Can.h lines 249-256).  `auto ec` has the
vendor return type `uint8_t`; `!x` on an integer is `x == 0`. -/
def Can.hasErrors {HW : Type} (c : Can) (v : Externals HW) (w : World HW) : Bool × World HW :=
  let r := v.CAN_GetLastErrorCode w.hw c._peripheralAddress
  let ec := u8 r.1
  let w1 : World HW := { w with hw := r.2, calls := w.calls ++ [Call.getLastErrorCode] }
  if ec ≠ v.CAN_ErrorCode_NoErr then
    let e := w1.errorProvider.set v.ERROR_PROVIDER_CAN ec ec
    (e.1 == 0, { w1 with errorProvider := e.2 })
  else
    (false, w1)

/-- A small simulated peripheral: what the next `CAN_Transmit` answers, how many
messages fifo 0, fifo 1, ... hold, the frame waiting in the fifos, and the last
error code. -/
structure SimHW where
  txAnswer : Nat
  pending : List Nat
  rxFrame : CanRxMsg
  lastError : Nat
  deriving DecidableEq

/-- The externals over `SimHW`, with the constant values of the vendor header
of the STM32 standard peripheral library (`CAN_TxStatus_NoMailBox = 0x04`,
`CAN_ErrorCode_NoErr = 0x00`, `CAN_Id_Standard = 0`, `CAN_Id_Extended = 4`,
`CAN_RTR_Data = 0`, `CAN_RTR_Remote = 2`); the subsystem tag is an arbitrary
number. -/
def simExternals : Externals SimHW where
  CAN_TxStatus_NoMailBox := 0x04
  CAN_ErrorCode_NoErr := 0x00
  CAN_Id_Standard := 0
  CAN_Id_Extended := 4
  CAN_RTR_Data := 0
  CAN_RTR_Remote := 2
  ERROR_PROVIDER_CAN := 7
  CAN_Transmit := fun hw _ _ => (hw.txAnswer, hw)
  CAN_MessagePending := fun hw _ fifo => (hw.pending.getD fifo 0, hw)
  CAN_Receive := fun hw _ _ _ => (hw.rxFrame, hw)
  CAN_GetLastErrorCode := fun hw _ => (hw.lastError, hw)

/-- A zeroed transmit frame with an 8 byte data field. -/
def zeroTx : CanTxMsg :=
  { StdId := 0, ExtId := 0, IDE := 0, RTR := 0, DLC := 0, Data := List.replicate 8 0 }

/-- A zeroed receive frame. -/
def zeroRx : CanRxMsg :=
  { StdId := 0, ExtId := 0, IDE := 0, RTR := 0, DLC := 0, Data := List.replicate 8 0, FMI := 0 }

/-- A received frame used by the simulated peripheral. -/
def someRx : CanRxMsg :=
  { StdId := 0x123, ExtId := 0, IDE := 0, RTR := 0, DLC := 2, Data := [1, 2, 0, 0, 0, 0, 0, 0],
    FMI := 0 }

/-- A simulated peripheral state. -/
def simHW (txAnswer pendingOnFifo0 lastError : Nat) : SimHW :=
  { txAnswer := txAnswer, pending := [pendingOnFifo0, 0],
    rxFrame := someRx, lastError := lastError }

/-- An error record left behind by some earlier failure of another subsystem. -/
def oldError : ErrorRecord := { subsystem := 3, code := 9, nativeCode := 5 }

/-- A world around a simulated peripheral state, with an empty call log. -/
def simWorld (txAnswer pendingOnFifo0 lastError : Nat) : World SimHW :=
  { hw := simHW txAnswer pendingOnFifo0 lastError, errorProvider := oldError, calls := [] }

/-- The driver object used in the evaluations. -/
def can1 : Can := { _peripheralAddress := 0x40006400 }

/-! ## Helper lemmas -/

theorem u8_of_lt {n : Nat} (h : n < 256) : u8 n = n := by
  unfold u8
  exact Nat.mod_eq_of_lt (by simpa using h)

theorem u8_lt (n : Nat) : u8 n < 256 := by
  unfold u8
  exact Nat.mod_lt _ (by norm_num)

theorem u16_of_lt {n : Nat} (h : n < 65536) : u16 n = n := by
  unfold u16
  exact Nat.mod_eq_of_lt (by simpa using h)

theorem u16_lt (n : Nat) : u16 n < 65536 := by
  unfold u16
  exact Nat.mod_lt _ (by norm_num)

theorem u32OfInt_of_range {i : Int} (h0 : 0 ≤ i) (h1 : i < 2 ^ 32) :
    u32OfInt i = i.toNat := by
  unfold u32OfInt
  rw [Int.emod_eq_of_lt h0 h1]

theorem u32OfInt_lt (i : Int) : u32OfInt i < 2 ^ 32 := by
  unfold u32OfInt
  have h1 : i % 2 ^ 32 < 2 ^ 32 := Int.emod_lt_of_pos _ (by norm_num)
  have h0 : 0 ≤ i % 2 ^ 32 := Int.emod_nonneg _ (by norm_num)
  omega

theorem memcpyBytes_length (dst : List Nat) (src : Nat → Nat) (n : Nat) :
    (memcpyBytes dst src n).length = n + (dst.length - n) := by
  simp [memcpyBytes]

theorem memcpyBytes_getElem?_lt (dst : List Nat) (src : Nat → Nat) {n i : Nat} (h : i < n) :
    (memcpyBytes dst src n)[i]? = some (u8 (src i)) := by
  unfold memcpyBytes
  rw [List.getElem?_append_left (by simpa using h)]
  simp [List.getElem?_map, List.getElem?_range h]

theorem memcpyBytes_getElem?_ge (dst : List Nat) (src : Nat → Nat) {n i : Nat} (h : n ≤ i) :
    (memcpyBytes dst src n)[i]? = dst[i]? := by
  unfold memcpyBytes
  rw [List.getElem?_append_right (by simpa using h)]
  simp only [List.length_map, List.length_range, List.getElem?_drop]
  congr 1
  omega

/-- Every call of `Can::send(CanTxMsg&)` hands exactly its argument to
`CAN_Transmit`, once. -/
theorem send_calls {HW : Type} (c : Can) (v : Externals HW) (msg : CanTxMsg) (w : World HW) :
    (Can.send c v msg w).2.calls = w.calls ++ [Call.transmit msg] := by
  unfold Can.send
  dsimp only
  split <;> rfl

/-- The value `Can::hasErrors` returns, in closed form: with the error provider
returning the recorded code, the negation `!code` is true only for code 0. -/
theorem hasErrors_fst {HW : Type} (c : Can) (v : Externals HW) (w : World HW) :
    (Can.hasErrors c v w).1 =
      (decide (u8 (v.CAN_GetLastErrorCode w.hw c._peripheralAddress).1 ≠ v.CAN_ErrorCode_NoErr)
        && (u8 (v.CAN_GetLastErrorCode w.hw c._peripheralAddress).1 == 0)) := by
  unfold Can.hasErrors
  dsimp only
  split <;> simp_all [ErrorRecord.set]

/-- With the vendor value `CAN_ErrorCode_NoErr = 0` (or any model of the
externals that uses 0 for "no error"), `Can::hasErrors` never returns true. -/
theorem hasErrors_false_of_noErr_zero {HW : Type} (c : Can) (v : Externals HW) (w : World HW)
    (h : v.CAN_ErrorCode_NoErr = 0) : (Can.hasErrors c v w).1 = false := by
  rw [hasErrors_fst, h]
  cases hz : (u8 (v.CAN_GetLastErrorCode w.hw c._peripheralAddress).1 == 0) <;> simp_all

/-! ## `Can::send(CanTxMsg&)` -/

/-- C1: for every driver, world and frame, when `CAN_Transmit` answers
`CAN_TxStatus_NoMailBox`, `Can::send(msg)` returns `E_TX_NO_MAILBOX` and the
error record afterwards is (`ERROR_PROVIDER_CAN`, `E_TX_NO_MAILBOX`,
`CAN_TxStatus_NoMailBox`). -/
theorem send_no_mailbox {HW : Type} (c : Can) (v : Externals HW) (msg : CanTxMsg)
    (w : World HW)
    (h : u8 (v.CAN_Transmit w.hw c._peripheralAddress msg).1 = v.CAN_TxStatus_NoMailBox) :
    (Can.send c v msg w).1 = Can.E_TX_NO_MAILBOX ∧
    (Can.send c v msg w).2.errorProvider =
      { subsystem := v.ERROR_PROVIDER_CAN, code := Can.E_TX_NO_MAILBOX,
        nativeCode := v.CAN_TxStatus_NoMailBox } := by
  unfold Can.send
  dsimp only
  rw [if_pos h]
  exact ⟨rfl, rfl⟩

/-- C1 at a concrete input: the simulated peripheral has no free mailbox. -/
theorem send_no_mailbox_witness :
    u8 (simExternals.CAN_Transmit (simWorld 4 0 0).hw can1._peripheralAddress zeroTx).1
        = simExternals.CAN_TxStatus_NoMailBox ∧
    (Can.send can1 simExternals zeroTx (simWorld 4 0 0)).1 = Can.E_TX_NO_MAILBOX ∧
    (Can.send can1 simExternals zeroTx (simWorld 4 0 0)).2.errorProvider =
      { subsystem := simExternals.ERROR_PROVIDER_CAN, code := Can.E_TX_NO_MAILBOX,
        nativeCode := simExternals.CAN_TxStatus_NoMailBox } :=
  ⟨by decide, send_no_mailbox can1 simExternals zeroTx (simWorld 4 0 0) (by decide)⟩

/-- C5: for every frame, when `CAN_Transmit` accepts the frame and answers the
mailbox number `k` (a value other than `CAN_TxStatus_NoMailBox`),
`Can::send(msg)` returns exactly `k` and the error record is the one from
before the call. -/
theorem send_accepted {HW : Type} (c : Can) (v : Externals HW) (msg : CanTxMsg)
    (w : World HW) (k : Nat)
    (hk : u8 (v.CAN_Transmit w.hw c._peripheralAddress msg).1 = k)
    (hne : k ≠ v.CAN_TxStatus_NoMailBox) :
    (Can.send c v msg w).1 = k ∧
    (Can.send c v msg w).2.errorProvider = w.errorProvider := by
  subst hk
  unfold Can.send
  dsimp only
  rw [if_neg hne]
  exact ⟨rfl, rfl⟩

/-- C5 at a concrete input: the simulated peripheral accepts into mailbox 2. -/
theorem send_accepted_witness :
    (Can.send can1 simExternals zeroTx (simWorld 2 0 0)).1 = 2 ∧
    (Can.send can1 simExternals zeroTx (simWorld 2 0 0)).2.errorProvider = oldError :=
  send_accepted can1 simExternals zeroTx (simWorld 2 0 0) 2 (by decide) (by decide)

/-- C4 (evaluation of the code): with the vendor value
`CAN_TxStatus_NoMailBox = 4`, a send that `CAN_Transmit` accepted into mailbox 1
and a send that found no free mailbox return the same value 1, although only
the second one touches the error record. -/
theorem send_no_mailbox_same_as_mailbox_one :
    u8 (simExternals.CAN_Transmit (simWorld 1 0 0).hw can1._peripheralAddress zeroTx).1 = 1 ∧
    (1 : Nat) ≠ simExternals.CAN_TxStatus_NoMailBox ∧
    u8 (simExternals.CAN_Transmit (simWorld 4 0 0).hw can1._peripheralAddress zeroTx).1
        = simExternals.CAN_TxStatus_NoMailBox ∧
    (Can.send can1 simExternals zeroTx (simWorld 1 0 0)).1 = 1 ∧
    (Can.send can1 simExternals zeroTx (simWorld 4 0 0)).1 = 1 ∧
    (Can.send can1 simExternals zeroTx (simWorld 1 0 0)).2.errorProvider = oldError ∧
    (Can.send can1 simExternals zeroTx (simWorld 4 0 0)).2.errorProvider ≠ oldError := by
  decide

/-! ## `Can::receive` -/

/-- C3: for every fifo and every output message `m`, when `CAN_MessagePending`
answers 0 for that fifo, `Can::receive(fifo,&m)` returns false, leaves `m` as it
was, and the only primitive it calls is `CAN_MessagePending`: the call log gains
that one entry and no `CAN_Receive`. -/
theorem receive_not_ready {HW : Type} (c : Can) (v : Externals HW) (fifo : Nat)
    (m : CanRxMsg) (w : World HW)
    (h : u8 (v.CAN_MessagePending w.hw c._peripheralAddress fifo).1 = 0) :
    (Can.receive c v fifo m w).1 = false ∧
    (Can.receive c v fifo m w).2.1 = m ∧
    (Can.receive c v fifo m w).2.2.calls = w.calls ++ [Call.messagePending fifo] ∧
    receiveCalls (Can.receive c v fifo m w).2.2.calls = receiveCalls w.calls := by
  have hr : (Can.receive c v fifo m w) =
      (false, m, (Can.readyToReceive c v fifo w).2) := by
    unfold Can.receive Can.readyToReceive
    simp [h]
  rw [hr]
  refine ⟨rfl, rfl, rfl, ?_⟩
  simp [Can.readyToReceive, receiveCalls, List.filter_append]

/-- C3 at a concrete input: fifo 0 of the simulated peripheral is empty. -/
theorem receive_not_ready_witness :
    u8 (simExternals.CAN_MessagePending (simWorld 0 0 0).hw can1._peripheralAddress 0).1 = 0 ∧
    (Can.receive can1 simExternals 0 zeroRx (simWorld 0 0 0)).1 = false ∧
    (Can.receive can1 simExternals 0 zeroRx (simWorld 0 0 0)).2.1 = zeroRx ∧
    (Can.receive can1 simExternals 0 zeroRx (simWorld 0 0 0)).2.2.calls
        = (simWorld 0 0 0).calls ++ [Call.messagePending 0] ∧
    receiveCalls (Can.receive can1 simExternals 0 zeroRx (simWorld 0 0 0)).2.2.calls
        = receiveCalls (simWorld 0 0 0).calls :=
  ⟨by decide, receive_not_ready can1 simExternals 0 zeroRx (simWorld 0 0 0) (by decide)⟩

/-- C9: for every fifo, `Can::receive(fifo,msg)` returns what
`readyToReceive(fifo)` returns, which is true exactly when `CAN_MessagePending`
answers a non-zero count; and when it returns true it has called `CAN_Receive`
exactly once, after the pending check, with that fifo and that message, and the
message behind the pointer is what `CAN_Receive` left there. -/
theorem receive_iff_pending {HW : Type} (c : Can) (v : Externals HW) (fifo : Nat)
    (m : CanRxMsg) (w : World HW) :
    (Can.receive c v fifo m w).1 = (Can.readyToReceive c v fifo w).1 ∧
    ((Can.receive c v fifo m w).1 = true ↔
      u8 (v.CAN_MessagePending w.hw c._peripheralAddress fifo).1 ≠ 0) ∧
    ((Can.receive c v fifo m w).1 = true →
      (Can.receive c v fifo m w).2.2.calls
        = w.calls ++ [Call.messagePending fifo, Call.receive fifo m] ∧
      receiveCalls (Can.receive c v fifo m w).2.2.calls = receiveCalls w.calls + 1 ∧
      (Can.receive c v fifo m w).2.1
        = (v.CAN_Receive (v.CAN_MessagePending w.hw c._peripheralAddress fifo).2
            c._peripheralAddress fifo m).1) := by
  by_cases h : u8 (v.CAN_MessagePending w.hw c._peripheralAddress fifo).1 = 0
  · have hr : (Can.receive c v fifo m w) =
        (false, m, (Can.readyToReceive c v fifo w).2) := by
      unfold Can.receive Can.readyToReceive
      simp [h]
    rw [hr]
    simp [Can.readyToReceive, h]
  · unfold Can.receive Can.readyToReceive
    simp [h, receiveCalls, List.filter_append]

/-- C9 at a concrete input: fifo 0 of the simulated peripheral holds 3 messages. -/
theorem receive_iff_pending_witness :
    (Can.receive can1 simExternals 0 zeroRx (simWorld 0 3 0)).2.2.calls
        = [Call.messagePending 0, Call.receive 0 zeroRx] ∧
    receiveCalls (Can.receive can1 simExternals 0 zeroRx (simWorld 0 3 0)).2.2.calls = 1 ∧
    (Can.receive can1 simExternals 0 zeroRx (simWorld 0 3 0)).2.1 = someRx :=
  (receive_iff_pending can1 simExternals 0 zeroRx (simWorld 0 3 0)).2.2 (by decide)

/-! ## `Can::hasErrors` -/

/-- C8: for every peripheral state, with `ec` the last hardware error code:
when `ec` differs from `CAN_ErrorCode_NoErr` the error record after
`Can::hasErrors()` is (`ERROR_PROVIDER_CAN`, `ec`, `ec`); when `ec` equals
`CAN_ErrorCode_NoErr` the error record is the one from before the call. -/
theorem hasErrors_error_record {HW : Type} (c : Can) (v : Externals HW) (w : World HW) :
    (u8 (v.CAN_GetLastErrorCode w.hw c._peripheralAddress).1 ≠ v.CAN_ErrorCode_NoErr →
      (Can.hasErrors c v w).2.errorProvider =
        { subsystem := v.ERROR_PROVIDER_CAN,
          code := u8 (v.CAN_GetLastErrorCode w.hw c._peripheralAddress).1,
          nativeCode := u8 (v.CAN_GetLastErrorCode w.hw c._peripheralAddress).1 }) ∧
    (u8 (v.CAN_GetLastErrorCode w.hw c._peripheralAddress).1 = v.CAN_ErrorCode_NoErr →
      (Can.hasErrors c v w).2.errorProvider = w.errorProvider) := by
  constructor
  · intro h
    unfold Can.hasErrors
    dsimp only
    rw [if_pos h]
    rfl
  · intro h
    unfold Can.hasErrors
    dsimp only
    rw [if_neg (not_not.mpr h)]

/-- C8 at two concrete inputs: last error code `0x30`, and no error. -/
theorem hasErrors_error_record_witness :
    (Can.hasErrors can1 simExternals (simWorld 0 0 0x30)).2.errorProvider =
      { subsystem := simExternals.ERROR_PROVIDER_CAN, code := 0x30, nativeCode := 0x30 } ∧
    (Can.hasErrors can1 simExternals (simWorld 0 0 0)).2.errorProvider = oldError :=
  ⟨(hasErrors_error_record can1 simExternals (simWorld 0 0 0x30)).1 (by decide),
   (hasErrors_error_record can1 simExternals (simWorld 0 0 0)).2 (by decide)⟩

theorem memcpy_of_le {dst : List Nat} (src : Nat → Nat) {n : Nat} (h : n ≤ dst.length) :
    memcpy dst src n = some (memcpyBytes dst src n) := by
  unfold memcpy
  exact if_pos h

theorem memcpy_of_gt {dst : List Nat} (src : Nat → Nat) {n : Nat} (h : dst.length < n) :
    memcpy dst src n = none := by
  unfold memcpy
  exact if_neg (by omega)

/-- With an 8 byte data array and `DLC ≤ 8`, `send(StdId,DLC,data)` returns, and
returns what `send(msg)` returns on the frame it built. -/
theorem sendStd_ok {HW : Type} (c : Can) (v : Externals HW) (init : CanTxMsg)
    (StdId DLC : Nat) (data : Nat → Nat) (w : World HW)
    (hinit : init.Data.length = 8) (hDLC : DLC ≤ 8) :
    Can.sendStd c v init StdId DLC data w =
      Except.ok (Can.send c v
        { init with IDE := v.CAN_Id_Standard, RTR := v.CAN_RTR_Data, DLC := DLC,
                    StdId := u16 StdId, Data := memcpyBytes init.Data data DLC } w) := by
  have h8 : u8 DLC = DLC := u8_of_lt (by omega)
  have hm : memcpy init.Data data DLC = some (memcpyBytes init.Data data DLC) :=
    memcpy_of_le data (by omega)
  unfold Can.sendStd
  simp only [h8, hm]

/-- With an 8 byte data array and `DLC ≤ 8`, `send(StdId,ExtId,DLC,data)`
returns, and returns what `send(msg)` returns on the frame it built. -/
theorem sendExt_ok {HW : Type} (c : Can) (v : Externals HW) (init : CanTxMsg)
    (StdId : Nat) (ExtId : Int) (DLC : Nat) (data : Nat → Nat) (w : World HW)
    (hinit : init.Data.length = 8) (hDLC : DLC ≤ 8) :
    Can.sendExt c v init StdId ExtId DLC data w =
      Except.ok (Can.send c v
        { init with IDE := v.CAN_Id_Extended, RTR := v.CAN_RTR_Data, DLC := DLC,
                    StdId := u16 StdId, ExtId := u32OfInt ExtId,
                    Data := memcpyBytes init.Data data DLC } w) := by
  have h8 : u8 DLC = DLC := u8_of_lt (by omega)
  have hm : memcpy init.Data data DLC = some (memcpyBytes init.Data data DLC) :=
    memcpy_of_le data (by omega)
  unfold Can.sendExt
  simp only [h8, hm]

/-- With an 8 byte data array and a `DLC` argument (as `uint8_t`) above 8, the
data frame overloads have no defined result: the copy overruns `msg.Data`. -/
theorem sendStd_overrun {HW : Type} (c : Can) (v : Externals HW) (init : CanTxMsg)
    (StdId DLC : Nat) (data : Nat → Nat) (w : World HW)
    (hinit : init.Data.length = 8) (hDLC : 8 < u8 DLC) :
    ∃ o : Overrun, Can.sendStd c v init StdId DLC data w = Except.error o ∧
      o.msg.DLC = u8 DLC ∧ o.count = u8 DLC := by
  have hm : memcpy init.Data data (u8 DLC) = none := memcpy_of_gt data (by omega)
  unfold Can.sendStd
  simp only [hm]
  exact ⟨_, rfl, rfl, rfl⟩

/-- C6 (as stated, refuted): called with `DLC = 9` and an 8 byte data array,
both data frame overloads reach `memcpy` with a frame whose `DLC` field is 9 and
ask it to copy 9 bytes into the 8 byte `Data` array; the copy overruns the
array and the call has no defined result. -/
theorem send_dlc_nine_exceeds_field :
    (∃ o : Overrun,
      Can.sendStd can1 simExternals zeroTx 0x100 9 (fun i => i + 1) (simWorld 0 0 0)
        = Except.error o ∧
      o.msg.DLC = 9 ∧ ¬ (o.msg.DLC ≤ 8) ∧ o.msg.Data.length = 8 ∧ o.count = 9 ∧
      ¬ (o.count ≤ 8)) ∧
    (∃ o : Overrun,
      Can.sendExt can1 simExternals zeroTx 0x100 0x1234 9 (fun i => i + 1) (simWorld 0 0 0)
        = Except.error o ∧
      o.msg.DLC = 9 ∧ ¬ (o.msg.DLC ≤ 8) ∧ o.msg.Data.length = 8 ∧ o.count = 9 ∧
      ¬ (o.count ≤ 8)) :=
  ⟨⟨_, rfl, by decide, by decide, by decide, by decide, by decide⟩,
   ⟨_, rfl, by decide, by decide, by decide, by decide, by decide⟩⟩

/-- C6 (amended): for every `StdId`, `ExtId` and data argument and every `DLC`
argument of at most 8, `send(StdId,DLC,data)` and `send(StdId,ExtId,DLC,data)`
return after handing exactly one frame to `CAN_Transmit`; that frame has its
`DLC` field equal to `DLC`, hence at most 8, and exactly `DLC` bytes were copied
into its 8 byte data field: bytes `0 .. DLC-1` are the bytes of `data`, the
bytes from `DLC` on are untouched, and the field keeps its 8 bytes. -/
theorem send_data_within_field {HW : Type} (c : Can) (v : Externals HW) (init : CanTxMsg)
    (StdId : Nat) (ExtId : Int) (DLC : Nat) (data : Nat → Nat) (w : World HW)
    (hinit : init.Data.length = 8) (hDLC : DLC ≤ 8) :
    (∃ f : CanTxMsg,
      Can.sendStd c v init StdId DLC data w = Except.ok (Can.send c v f w) ∧
      (Can.send c v f w).2.calls = w.calls ++ [Call.transmit f] ∧
      f.DLC = DLC ∧ f.DLC ≤ 8 ∧ f.Data.length = 8 ∧
      (∀ i, i < DLC → f.Data[i]? = some (u8 (data i))) ∧
      (∀ i, DLC ≤ i → f.Data[i]? = init.Data[i]?)) ∧
    (∃ f : CanTxMsg,
      Can.sendExt c v init StdId ExtId DLC data w = Except.ok (Can.send c v f w) ∧
      (Can.send c v f w).2.calls = w.calls ++ [Call.transmit f] ∧
      f.DLC = DLC ∧ f.DLC ≤ 8 ∧ f.Data.length = 8 ∧
      (∀ i, i < DLC → f.Data[i]? = some (u8 (data i))) ∧
      (∀ i, DLC ≤ i → f.Data[i]? = init.Data[i]?)) := by
  have hlen : (memcpyBytes init.Data data DLC).length = 8 := by
    rw [memcpyBytes_length, hinit]
    omega
  constructor
  · refine ⟨_, sendStd_ok c v init StdId DLC data w hinit hDLC, send_calls c v _ w,
      rfl, hDLC, hlen, ?_, ?_⟩
    · intro i hi
      exact memcpyBytes_getElem?_lt init.Data data hi
    · intro i hi
      exact memcpyBytes_getElem?_ge init.Data data hi
  · refine ⟨_, sendExt_ok c v init StdId ExtId DLC data w hinit hDLC, send_calls c v _ w,
      rfl, hDLC, hlen, ?_, ?_⟩
    · intro i hi
      exact memcpyBytes_getElem?_lt init.Data data hi
    · intro i hi
      exact memcpyBytes_getElem?_ge init.Data data hi

/-- C6 (amended) at a concrete input: three data bytes. -/
theorem send_data_within_field_witness :
    (∃ f : CanTxMsg,
      Can.sendStd can1 simExternals zeroTx 0x100 3 (fun i => i + 1) (simWorld 0 0 0)
        = Except.ok (Can.send can1 simExternals f (simWorld 0 0 0)) ∧
      (Can.send can1 simExternals f (simWorld 0 0 0)).2.calls
        = (simWorld 0 0 0).calls ++ [Call.transmit f] ∧
      f.DLC = 3 ∧ f.DLC ≤ 8 ∧ f.Data.length = 8 ∧
      (∀ i, i < 3 → f.Data[i]? = some (u8 ((fun i => i + 1) i))) ∧
      (∀ i, 3 ≤ i → f.Data[i]? = zeroTx.Data[i]?)) ∧
    (∃ f : CanTxMsg,
      Can.sendExt can1 simExternals zeroTx 0x100 0x1234 3 (fun i => i + 1) (simWorld 0 0 0)
        = Except.ok (Can.send can1 simExternals f (simWorld 0 0 0)) ∧
      (Can.send can1 simExternals f (simWorld 0 0 0)).2.calls
        = (simWorld 0 0 0).calls ++ [Call.transmit f] ∧
      f.DLC = 3 ∧ f.DLC ≤ 8 ∧ f.Data.length = 8 ∧
      (∀ i, i < 3 → f.Data[i]? = some (u8 ((fun i => i + 1) i))) ∧
      (∀ i, 3 ≤ i → f.Data[i]? = zeroTx.Data[i]?)) :=
  send_data_within_field can1 simExternals zeroTx 0x100 0x1234 3 (fun i => i + 1)
    (simWorld 0 0 0) (by decide) (by decide)

/-- C7 (as stated, refuted): the standard overloads called with `StdId = 0x800`
transmit a frame whose `StdId` field is 2^11, and the extended overloads called
with `ExtId = 0x20000000` transmit a frame whose `ExtId` field is 2^29 (no data
bytes are copied in these calls, `DLC` is 0). -/
theorem send_identifier_exceeds_wire_width :
    (∃ f ∈ transmitted (Can.sendRemoteFrameStd can1 simExternals zeroTx 0x800 0
        (simWorld 0 0 0)).2.calls, f.StdId = 2 ^ 11 ∧ ¬ (f.StdId < 2 ^ 11)) ∧
    (∃ r : Nat × World SimHW,
      Can.sendStd can1 simExternals zeroTx 0x800 0 (fun _ => 0) (simWorld 0 0 0)
        = Except.ok r ∧
      ∃ f ∈ transmitted r.2.calls, f.StdId = 2 ^ 11 ∧ ¬ (f.StdId < 2 ^ 11)) ∧
    (∃ f ∈ transmitted (Can.sendRemoteFrameExt can1 simExternals zeroTx 0 0x20000000 0
        (simWorld 0 0 0)).2.calls, f.ExtId = 2 ^ 29 ∧ ¬ (f.ExtId < 2 ^ 29)) ∧
    (∃ r : Nat × World SimHW,
      Can.sendExt can1 simExternals zeroTx 0 0x20000000 0 (fun _ => 0) (simWorld 0 0 0)
        = Except.ok r ∧
      ∃ f ∈ transmitted r.2.calls, f.ExtId = 2 ^ 29 ∧ ¬ (f.ExtId < 2 ^ 29)) :=
  ⟨by decide, ⟨_, rfl, by decide⟩, by decide, ⟨_, rfl, by decide⟩⟩

/-- C7 (amended): for every argument value with `StdId < 2^11`, the frame built
by `sendRemoteFrame(StdId,DLC)` and, when `DLC ≤ 8`, the frame built by
`send(StdId,DLC,data)` have that `StdId` in their `StdId` field, below 2^11; and
for every argument value with `0 ≤ ExtId < 2^29`, the frame built by
`sendRemoteFrame(StdId,ExtId,DLC)` and, when `DLC ≤ 8`, the frame built by
`send(StdId,ExtId,DLC,data)` have that `ExtId` in their `ExtId` field, a
non-negative value below 2^29.  (With `DLC` above 8 the data frame overloads
overrun the data array and build no frame.) -/
theorem send_identifier_within_wire_width {HW : Type} (c : Can) (v : Externals HW)
    (init : CanTxMsg) (StdId : Nat) (ExtId : Int) (DLC : Nat) (data : Nat → Nat)
    (w : World HW) :
    (StdId < 2 ^ 11 →
      (∃ f : CanTxMsg,
        (Can.sendRemoteFrameStd c v init StdId DLC w).2.calls
          = w.calls ++ [Call.transmit f] ∧ f.StdId = StdId ∧ f.StdId < 2 ^ 11) ∧
      (init.Data.length = 8 → DLC ≤ 8 →
        ∃ f : CanTxMsg,
          Can.sendStd c v init StdId DLC data w = Except.ok (Can.send c v f w) ∧
          (Can.send c v f w).2.calls = w.calls ++ [Call.transmit f] ∧
          f.StdId = StdId ∧ f.StdId < 2 ^ 11)) ∧
    (0 ≤ ExtId → ExtId < 2 ^ 29 →
      (∃ f : CanTxMsg,
        (Can.sendRemoteFrameExt c v init StdId ExtId DLC w).2.calls
          = w.calls ++ [Call.transmit f] ∧ (f.ExtId : Int) = ExtId ∧ f.ExtId < 2 ^ 29) ∧
      (init.Data.length = 8 → DLC ≤ 8 →
        ∃ f : CanTxMsg,
          Can.sendExt c v init StdId ExtId DLC data w = Except.ok (Can.send c v f w) ∧
          (Can.send c v f w).2.calls = w.calls ++ [Call.transmit f] ∧
          (f.ExtId : Int) = ExtId ∧ f.ExtId < 2 ^ 29)) := by
  constructor
  · intro hS
    have h16 : u16 StdId = StdId := u16_of_lt (by omega)
    have hlt : u16 StdId < 2 ^ 11 := by
      rw [h16]
      exact hS
    refine ⟨⟨_, send_calls c v _ w, h16, hlt⟩, ?_⟩
    intro hinit hDLC
    exact ⟨_, sendStd_ok c v init StdId DLC data w hinit hDLC, send_calls c v _ w, h16, hlt⟩
  · intro h0 h1
    have h32 : u32OfInt ExtId = ExtId.toNat := u32OfInt_of_range h0 (by omega)
    have hcast : ((u32OfInt ExtId : Nat) : Int) = ExtId := by
      rw [h32]
      exact Int.toNat_of_nonneg h0
    have hlt : u32OfInt ExtId < 2 ^ 29 := by
      rw [h32]
      omega
    refine ⟨⟨_, send_calls c v _ w, hcast, hlt⟩, ?_⟩
    intro hinit hDLC
    exact ⟨_, sendExt_ok c v init StdId ExtId DLC data w hinit hDLC, send_calls c v _ w,
      hcast, hlt⟩

/-- C7 (amended) at a concrete input: the largest identifiers of both widths. -/
theorem send_identifier_within_wire_width_witness :
    ((∃ f : CanTxMsg,
        (Can.sendRemoteFrameStd can1 simExternals zeroTx 0x7FF 2 (simWorld 0 0 0)).2.calls
          = (simWorld 0 0 0).calls ++ [Call.transmit f] ∧ f.StdId = 0x7FF ∧ f.StdId < 2 ^ 11) ∧
      (∃ f : CanTxMsg,
        Can.sendStd can1 simExternals zeroTx 0x7FF 2 (fun i => i) (simWorld 0 0 0)
          = Except.ok (Can.send can1 simExternals f (simWorld 0 0 0)) ∧
        (Can.send can1 simExternals f (simWorld 0 0 0)).2.calls
          = (simWorld 0 0 0).calls ++ [Call.transmit f] ∧
        f.StdId = 0x7FF ∧ f.StdId < 2 ^ 11)) ∧
    ((∃ f : CanTxMsg,
        (Can.sendRemoteFrameExt can1 simExternals zeroTx 0x7FF 0x1FFFFFFF 2
          (simWorld 0 0 0)).2.calls
          = (simWorld 0 0 0).calls ++ [Call.transmit f] ∧ (f.ExtId : Int) = 0x1FFFFFFF ∧
            f.ExtId < 2 ^ 29) ∧
      (∃ f : CanTxMsg,
        Can.sendExt can1 simExternals zeroTx 0x7FF 0x1FFFFFFF 2 (fun i => i) (simWorld 0 0 0)
          = Except.ok (Can.send can1 simExternals f (simWorld 0 0 0)) ∧
        (Can.send can1 simExternals f (simWorld 0 0 0)).2.calls
          = (simWorld 0 0 0).calls ++ [Call.transmit f] ∧
        (f.ExtId : Int) = 0x1FFFFFFF ∧ f.ExtId < 2 ^ 29)) :=
  ⟨⟨((send_identifier_within_wire_width can1 simExternals zeroTx 0x7FF 0x1FFFFFFF 2
        (fun i => i) (simWorld 0 0 0)).1 (by decide)).1,
    ((send_identifier_within_wire_width can1 simExternals zeroTx 0x7FF 0x1FFFFFFF 2
        (fun i => i) (simWorld 0 0 0)).1 (by decide)).2 (by decide) (by decide)⟩,
   ⟨((send_identifier_within_wire_width can1 simExternals zeroTx 0x7FF 0x1FFFFFFF 2
        (fun i => i) (simWorld 0 0 0)).2 (by decide) (by decide)).1,
    ((send_identifier_within_wire_width can1 simExternals zeroTx 0x7FF 0x1FFFFFFF 2
        (fun i => i) (simWorld 0 0 0)).2 (by decide) (by decide)).2 (by decide) (by decide)⟩⟩

/-- C10 (as stated, refuted): called with `DLC = 255`, neither data frame
overload returns the result of `Can::send(msg)` on any frame: `memcpy` is asked
to copy 255 bytes into the 8 byte `Data` array of the local frame, and the call
ends in the overrun before `send(msg)` is reached. -/
theorem send_dlc_255_never_reaches_send :
    (¬ ∃ f : CanTxMsg,
      Can.sendStd can1 simExternals zeroTx 0x123 255 (fun i => i) (simWorld 0 0 0)
        = Except.ok (Can.send can1 simExternals f (simWorld 0 0 0))) ∧
    (¬ ∃ f : CanTxMsg,
      Can.sendExt can1 simExternals zeroTx 0x123 0x4567 255 (fun i => i) (simWorld 0 0 0)
        = Except.ok (Can.send can1 simExternals f (simWorld 0 0 0))) ∧
    (∃ o : Overrun,
      Can.sendStd can1 simExternals zeroTx 0x123 255 (fun i => i) (simWorld 0 0 0)
        = Except.error o ∧ o.count = 255 ∧ o.msg.Data.length = 8) ∧
    (∃ o : Overrun,
      Can.sendExt can1 simExternals zeroTx 0x123 0x4567 255 (fun i => i) (simWorld 0 0 0)
        = Except.error o ∧ o.count = 255 ∧ o.msg.Data.length = 8) := by
  have hS : Can.sendStd can1 simExternals zeroTx 0x123 255 (fun i => i) (simWorld 0 0 0)
      = Except.error
          { msg := { zeroTx with IDE := 0, RTR := 0, DLC := 255, StdId := 0x123 },
            count := 255 } := rfl
  have hE : Can.sendExt can1 simExternals zeroTx 0x123 0x4567 255 (fun i => i) (simWorld 0 0 0)
      = Except.error
          { msg := { zeroTx with IDE := 4, RTR := 0, DLC := 255, StdId := 0x123,
                                 ExtId := 0x4567 },
            count := 255 } := rfl
  refine ⟨?_, ?_, ⟨_, hS, rfl, by decide⟩, ⟨_, hE, rfl, by decide⟩⟩
  · rintro ⟨f, hf⟩
    rw [hS] at hf
    cases hf
  · rintro ⟨f, hf⟩
    rw [hE] at hf
    cases hf

/-- C10 (amended): every overload that returns, returns the result of
`Can::send(msg)` on the frame it built, and that frame is the one its name and
arguments describe.  For `DLC ≤ 8`, `send(StdId,DLC,data)` returns and builds:
`IDE` standard, `RTR` data, `DLC` and `StdId` the arguments (`StdId` as
`uint16_t`), the first `DLC` bytes of `Data` the bytes of `data`; and
`send(StdId,ExtId,DLC,data)` returns and builds: `IDE` extended, `RTR` data, and
also `ExtId` the argument (converted to the unsigned field).  For every `DLC`,
`sendRemoteFrame(StdId,DLC)` builds `IDE` standard, `RTR` remote, and
`sendRemoteFrame(StdId,ExtId,DLC)` builds `IDE` extended, `RTR` remote.  The two
flag values of the vendor header being different, a data frame call never builds
a remote frame and a remote frame call never builds a data frame. -/
theorem send_overloads_build_frame {HW : Type} (c : Can) (v : Externals HW)
    (init : CanTxMsg) (StdId : Nat) (ExtId : Int) (DLC : Nat) (data : Nat → Nat)
    (w : World HW) (hRTR : v.CAN_RTR_Data ≠ v.CAN_RTR_Remote) :
    (init.Data.length = 8 → DLC ≤ 8 →
      ∃ f : CanTxMsg,
        Can.sendStd c v init StdId DLC data w = Except.ok (Can.send c v f w) ∧
        f.IDE = v.CAN_Id_Standard ∧ f.RTR = v.CAN_RTR_Data ∧ f.DLC = DLC ∧
        f.StdId = u16 StdId ∧ (∀ i, i < DLC → f.Data[i]? = some (u8 (data i))) ∧
        f.RTR ≠ v.CAN_RTR_Remote) ∧
    (init.Data.length = 8 → DLC ≤ 8 →
      ∃ f : CanTxMsg,
        Can.sendExt c v init StdId ExtId DLC data w = Except.ok (Can.send c v f w) ∧
        f.IDE = v.CAN_Id_Extended ∧ f.RTR = v.CAN_RTR_Data ∧ f.DLC = DLC ∧
        f.StdId = u16 StdId ∧ f.ExtId = u32OfInt ExtId ∧
        (∀ i, i < DLC → f.Data[i]? = some (u8 (data i))) ∧
        f.RTR ≠ v.CAN_RTR_Remote) ∧
    (∃ f : CanTxMsg, Can.sendRemoteFrameStd c v init StdId DLC w = Can.send c v f w ∧
      f.IDE = v.CAN_Id_Standard ∧ f.RTR = v.CAN_RTR_Remote ∧ f.DLC = u8 DLC ∧
      f.StdId = u16 StdId ∧ f.RTR ≠ v.CAN_RTR_Data) ∧
    (∃ f : CanTxMsg, Can.sendRemoteFrameExt c v init StdId ExtId DLC w = Can.send c v f w ∧
      f.IDE = v.CAN_Id_Extended ∧ f.RTR = v.CAN_RTR_Remote ∧ f.DLC = u8 DLC ∧
      f.StdId = u16 StdId ∧ f.ExtId = u32OfInt ExtId ∧ f.RTR ≠ v.CAN_RTR_Data) := by
  refine ⟨?_, ?_, ⟨_, rfl, rfl, rfl, rfl, rfl, Ne.symm hRTR⟩,
    ⟨_, rfl, rfl, rfl, rfl, rfl, rfl, Ne.symm hRTR⟩⟩
  · intro hinit hDLC
    refine ⟨_, sendStd_ok c v init StdId DLC data w hinit hDLC, rfl, rfl, rfl, rfl, ?_, hRTR⟩
    intro i hi
    exact memcpyBytes_getElem?_lt init.Data data hi
  · intro hinit hDLC
    refine ⟨_, sendExt_ok c v init StdId ExtId DLC data w hinit hDLC, rfl, rfl, rfl, rfl, rfl,
      ?_, hRTR⟩
    intro i hi
    exact memcpyBytes_getElem?_lt init.Data data hi

/-- C10 (amended) at a concrete input, with the flag values of the vendor
header and two data bytes. -/
theorem send_overloads_build_frame_witness :
    simExternals.CAN_RTR_Data ≠ simExternals.CAN_RTR_Remote ∧
    (∃ f : CanTxMsg,
      Can.sendStd can1 simExternals zeroTx 0x123 2 (fun i => i + 7) (simWorld 0 0 0)
        = Except.ok (Can.send can1 simExternals f (simWorld 0 0 0)) ∧
      f.IDE = simExternals.CAN_Id_Standard ∧ f.RTR = simExternals.CAN_RTR_Data ∧
      f.DLC = 2 ∧ f.StdId = u16 0x123 ∧
      (∀ i, i < 2 → f.Data[i]? = some (u8 ((fun i => i + 7) i))) ∧
      f.RTR ≠ simExternals.CAN_RTR_Remote) ∧
    (∃ f : CanTxMsg,
      Can.sendExt can1 simExternals zeroTx 0x123 0x4567 2 (fun i => i + 7) (simWorld 0 0 0)
        = Except.ok (Can.send can1 simExternals f (simWorld 0 0 0)) ∧
      f.IDE = simExternals.CAN_Id_Extended ∧ f.RTR = simExternals.CAN_RTR_Data ∧
      f.DLC = 2 ∧ f.StdId = u16 0x123 ∧ f.ExtId = u32OfInt 0x4567 ∧
      (∀ i, i < 2 → f.Data[i]? = some (u8 ((fun i => i + 7) i))) ∧
      f.RTR ≠ simExternals.CAN_RTR_Remote) ∧
    (∃ f : CanTxMsg,
      Can.sendRemoteFrameStd can1 simExternals zeroTx 0x123 2 (simWorld 0 0 0)
        = Can.send can1 simExternals f (simWorld 0 0 0) ∧
      f.IDE = simExternals.CAN_Id_Standard ∧ f.RTR = simExternals.CAN_RTR_Remote ∧
      f.DLC = u8 2 ∧ f.StdId = u16 0x123 ∧ f.RTR ≠ simExternals.CAN_RTR_Data) ∧
    (∃ f : CanTxMsg,
      Can.sendRemoteFrameExt can1 simExternals zeroTx 0x123 0x4567 2 (simWorld 0 0 0)
        = Can.send can1 simExternals f (simWorld 0 0 0) ∧
      f.IDE = simExternals.CAN_Id_Extended ∧ f.RTR = simExternals.CAN_RTR_Remote ∧
      f.DLC = u8 2 ∧ f.StdId = u16 0x123 ∧ f.ExtId = u32OfInt 0x4567 ∧
      f.RTR ≠ simExternals.CAN_RTR_Data) :=
  ⟨by decide,
   (send_overloads_build_frame can1 simExternals zeroTx 0x123 0x4567 2 (fun i => i + 7)
     (simWorld 0 0 0) (by decide)).1 (by decide) (by decide),
   (send_overloads_build_frame can1 simExternals zeroTx 0x123 0x4567 2 (fun i => i + 7)
     (simWorld 0 0 0) (by decide)).2.1 (by decide) (by decide),
   (send_overloads_build_frame can1 simExternals zeroTx 0x123 0x4567 2 (fun i => i + 7)
     (simWorld 0 0 0) (by decide)).2.2⟩

end stm32plus
